import Mathlib

/-
Verification development for potion-client (src/potion_client/routes.py).

The Python source is shallowly embedded: JSON/Python values become the
inductive `Value`, schema fragments become `Schema`, the AttributeMapper
class hierarchy (AttributeMapper / OneOf / Items, produced by run-time
reclassification in `_parse_definition`) becomes the inductive
`AttributeMapper` built by `mkAttr`, and the stateful proxy / iterator /
resource machinery is embedded with explicit state passing.  Python's
unbounded recursion is rendered with a structural fuel parameter; every
concrete evaluation in the theorems supplies ample fuel, so the fuel-0
branches are never taken there.

External collaborators (HTTP transport, jsonschema validation) and
repository modules absent from src/ (potion_client.utils, .constants,
.data_types, .exceptions) are modelled from the spec where needed; each
such definition carries a doc comment starting "Modelled from the spec:".
-/

namespace Potion

/-- Python/JSON values as handled by routes.py.  `res` stands for a
client-side Resource object produced by the reference-resolution
collaborator (see `evaluate_ref` / `for_key_resolve`). -/
inductive Value where
  | null : Value
  | int (n : Int) : Value
  | float (num den : Int) : Value
  | str (s : String) : Value
  | bool (b : Bool) : Value
  | list (xs : List Value) : Value
  | obj (kvs : List (String × Value)) : Value
  | res (uri : String) : Value
deriving Repr

/-- The `obj is None` test. -/
def Value.isNull : Value → Bool
  | .null => true
  | _ => false

/-- Python exceptions raised by the embedded code paths. -/
inductive PyErr where
  | typeError (msg : String) : PyErr
  | valueError (msg : String) : PyErr
  | keyError (k : String) : PyErr
  | indexError : PyErr
  | attributeError : PyErr
  | assertionError (msg : String) : PyErr
  | validationError : PyErr
  | notImplementedError : PyErr
  | oneOfException (causes : List PyErr) : PyErr
deriving Repr

/-- Python type objects, as produced by `utils.type_for`. -/
inductive PyType where
  | noneType : PyType
  | intT : PyType
  | floatT : PyType
  | strT : PyType
  | boolT : PyType
  | dictT : PyType
  | listT : PyType
deriving Repr, DecidableEq, BEq

/-- A JSON-Schema fragment, restricted to the keys routes.py inspects:
`type` (normalised to a list of type names), `properties`, `items`,
`oneOf`, `readOnly`, `additionalProperties`.  An `Option` field being
`none` models the key being absent from the Python dict. -/
inductive Schema where
  | mk (type_ : Option (List String)) (properties : Option (List (String × Schema)))
      (items : Option Schema) (oneOf : Option (List Schema))
      (readOnly : Option Bool) (additionalProperties : Option Bool) : Schema
deriving Repr

def Schema.type_ : Schema → Option (List String)
  | .mk t _ _ _ _ _ => t

def Schema.properties : Schema → Option (List (String × Schema))
  | .mk _ p _ _ _ _ => p

def Schema.items : Schema → Option Schema
  | .mk _ _ i _ _ _ => i

def Schema.oneOf : Schema → Option (List Schema)
  | .mk _ _ _ o _ _ => o

def Schema.readOnly : Schema → Option Bool
  | .mk _ _ _ _ r _ => r

def Schema.additionalProperties : Schema → Option Bool
  | .mk _ _ _ _ _ a => a

def Schema.empty : Schema := .mk none none none none none none

/-- Truthiness of the schema dict (a Python dict is falsy iff it has no keys);
`Items.serialize` passes `self.definition` in the `valid` position, so the
element validation flag is exactly this truthiness. -/
def Schema.isEmpty : Schema → Bool
  | .mk none none none none none none => true
  | _ => false

/-- Modelled from the spec: `utils.type_for` (potion_client.utils is not under
src/).  It maps declared JSON-schema type names to the corresponding Python
types; §4.1 relies on "null" mapping to the None type and on scalars mapping
to their primitive type. -/
def type_for (ts : List String) : List PyType :=
  ts.foldl (fun acc s =>
    acc ++ (if s = "integer" then [PyType.intT]
      else if s = "number" then [PyType.floatT]
      else if s = "string" then [PyType.strT]
      else if s = "boolean" then [PyType.boolT]
      else if s = "object" then [PyType.dictT]
      else if s = "array" then [PyType.listT]
      else if s = "null" then [PyType.noneType]
      else [])) []

/-- The AttributeMapper hierarchy after `_parse_definition` has run:
`base` is a plain AttributeMapper (its `attributes` parsed from
`properties`), `items` is the Items subclass (whose `definition` has been
replaced by the inner `items` fragment, per the source's in-place
reclassification), and `oneOf` is the OneOf subclass holding its variant
mappers in declared order. -/
inductive AttributeMapper where
  | base (read_only additional_properties : Bool) (definition : Schema)
      (attributes : List (String × AttributeMapper)) : AttributeMapper
  | items (read_only additional_properties : Bool) (definition : Schema)
      (attributes : List (String × AttributeMapper)) : AttributeMapper
  | oneOf (read_only additional_properties : Bool)
      (variants : List AttributeMapper) : AttributeMapper
deriving Repr

/-- `AttributeMapper.__init__` + `_parse_definition` (routes.py:33-55): detect
`properties`, else descend into `items` (becoming Items), else into `oneOf`
(becoming OneOf); `read_only` / `additional_properties` are read from the
original fragment before any reclassification. -/
def mkAttrCore : Nat → Bool → Bool → Bool → Schema → AttributeMapper
  | 0, isItems, ro, ap, d =>
    (cond isItems AttributeMapper.items AttributeMapper.base) ro ap d []
  | fuel+1, isItems, ro, ap, d =>
    match d.properties with
    | some ps =>
      (cond isItems AttributeMapper.items AttributeMapper.base) ro ap d
        (ps.map (fun ns =>
          (ns.1, mkAttrCore fuel false (ns.2.readOnly.getD false)
            (ns.2.additionalProperties.getD false) ns.2)))
    | none =>
      match d.items with
      | some it => mkAttrCore fuel true ro ap it
      | none =>
        match d.oneOf with
        | some vs =>
          AttributeMapper.oneOf ro ap (vs.map (fun v =>
            mkAttrCore fuel false (v.readOnly.getD false)
              (v.additionalProperties.getD false) v))
        | none => (cond isItems AttributeMapper.items AttributeMapper.base) ro ap d []

def mkAttr (fuel : Nat) (s : Schema) : AttributeMapper :=
  mkAttrCore fuel false (s.readOnly.getD false) (s.additionalProperties.getD false) s

def AttributeMapper.read_only : AttributeMapper → Bool
  | .base ro _ _ _ => ro
  | .items ro _ _ _ => ro
  | .oneOf ro _ _ => ro

def AttributeMapper.additional_properties : AttributeMapper → Bool
  | .base _ ap _ _ => ap
  | .items _ ap _ _ => ap
  | .oneOf _ ap _ => ap

/-- `self.definition` as seen by the base-class code paths (for OneOf the
definition is the raw list, which none of the embedded base paths consult;
`Schema.empty` stands in for it). -/
def AttributeMapper.definitionOf : AttributeMapper → Schema
  | .base _ _ d _ => d
  | .items _ _ d _ => d
  | .oneOf _ _ _ => Schema.empty

def AttributeMapper.attributesOf : AttributeMapper → List (String × AttributeMapper)
  | .base _ _ _ attrs => attrs
  | .items _ _ _ attrs => attrs
  | .oneOf _ _ _ => []

/-- Order-preserving deduplication, as in `OneOf.types` (routes.py:148-152). -/
def pydedup (l : List PyType) : List PyType :=
  l.foldl (fun acc t => if acc.contains t then acc else acc ++ [t]) []

/-- `AttributeMapper.types` / `OneOf.types` (routes.py:61-63, 148-152). -/
def typesF : Nat → AttributeMapper → List PyType
  | 0, _ => []
  | fuel+1, a =>
    match a with
    | .oneOf _ _ vars => pydedup (vars.foldl (fun acc v => acc ++ typesF fuel v) [])
    | _ => type_for (a.definitionOf.type_.getD ["object"])

/-- `AttributeMapper.required` (routes.py:57-59): literally, whether the type
set includes the None type. -/
def requiredF (fuel : Nat) (a : AttributeMapper) : Bool :=
  (typesF fuel a).contains PyType.noneType

/-- `AttributeMapper.empty_value` (routes.py:105-112) and the Items override
(routes.py:166-171). -/
def empty_valueF (fuel : Nat) (a : AttributeMapper) : Value :=
  match a with
  | .items _ _ _ _ =>
    if (typesF fuel a).contains PyType.noneType then Value.null else Value.list []
  | _ =>
    if a.read_only || (typesF fuel a).contains PyType.noneType then Value.null
    else if (typesF fuel a).contains PyType.dictT then Value.obj [] else Value.null

/-- Python truthiness, for `bool(x)`. -/
def pyTruthy : Value → Bool
  | .null => false
  | .int n => n != 0
  | .float num _ => num != 0
  | .str s => s != ""
  | .bool b => b
  | .list xs => !xs.isEmpty
  | .obj kvs => !kvs.isEmpty
  | .res _ => true

/-- Decimal digit character for `n < 10`. -/
def digitChar (n : Nat) : Char := Char.ofNat (48 + n)

/-- Decimal digits of a natural number (structural on the fuel, which every
caller sets to `n + 1`, always sufficient). -/
def natDigits : Nat → Nat → List Char
  | 0, _ => []
  | fuel+1, n =>
    if n < 10 then [digitChar n]
    else natDigits fuel (n / 10) ++ [digitChar (n % 10)]

/-- Decimal rendering of a natural number (Python `str(n)`). -/
def natRepr (n : Nat) : String := ⟨natDigits (n+1) n⟩

/-- Decimal rendering of an integer (Python `str(n)`). -/
def intRepr : Int → String
  | .ofNat n => natRepr n
  | .negSucc n => "-" ++ natRepr (n+1)

def digitVal? (c : Char) : Option Nat :=
  let v := c.toNat
  if 48 ≤ v && v ≤ 57 then some (v - 48) else none

def digitsValAux : List Char → Nat → Option Nat
  | [], acc => some acc
  | c :: rest, acc =>
    match digitVal? c with
    | some d => digitsValAux rest (acc * 10 + d)
    | none => none

/-- Python `int(s)` on a string: an optional sign followed by at least one
decimal digit; anything else raises ValueError (signalled by `none`). -/
def pyStrToInt? (s : String) : Option Int :=
  match s.data with
  | [] => none
  | c :: rest =>
    if c = '-' then
      match rest with
      | [] => none
      | _ => (digitsValAux rest 0).map (fun n => -(n : Int))
    else if c = '+' then
      match rest with
      | [] => none
      | _ => (digitsValAux rest 0).map (fun n => (n : Int))
    else (digitsValAux (c :: rest) 0).map (fun n => (n : Int))

/-- `s.startswith(c)` for a one-character pattern. -/
def startswithChar (s : String) (c0 : Char) : Bool :=
  match s.data with
  | c :: _ => c = c0
  | [] => false

/-- Concatenate with a separator (`sep.join(ss)`). -/
def joinSep (sep : String) : List String → String
  | [] => ""
  | [s] => s
  | s :: rest => s ++ sep ++ joinSep sep rest

/-- An apostrophe character, for Python repr of strings. -/
def sq : String := String.singleton (Char.ofNat 39)

/-- Python `str()` / `repr()` of a value (`quoted` selects repr, used for
elements inside containers).  Floats are carried as exact fractions in this
model, so their textual form is approximate; no theorem depends on it. -/
def pyStrAux : Nat → Bool → Value → String
  | 0, _, _ => ""
  | fuel+1, quoted, v =>
    match v with
    | .null => "None"
    | .int n => intRepr n
    | .float num den => intRepr num ++ "/" ++ intRepr den
    | .bool b => cond b "True" "False"
    | .str s => if quoted then sq ++ s ++ sq else s
    | .list xs => "[" ++ joinSep ", " (xs.map (pyStrAux fuel true)) ++ "]"
    | .obj kvs =>
      "\x7b" ++ joinSep ", "
        (kvs.map (fun kv => sq ++ kv.1 ++ sq ++ ": " ++ pyStrAux fuel true kv.2)) ++ "\x7d"
    | .res u => "<Resource " ++ u ++ ">"

/-- Python's `t(obj)` coercion for the types produced by `type_for`, as used
by `self.types[0](obj)` in `AttributeMapper.serialize` (routes.py:90).
`type(None)(obj)` and coercing containers to numbers raise TypeError. -/
def pyCoerce (fuel : Nat) (t : PyType) (v : Value) : Except PyErr Value :=
  match t with
  | .intT =>
    match v with
    | .int n => .ok (.int n)
    | .bool b => .ok (.int (cond b 1 0))
    | .float num den => .ok (.int (Int.tdiv num den))
    | .str s =>
      match pyStrToInt? s with
      | some n => .ok (.int n)
      | none => .error (.valueError "invalid literal for int")
    | _ => .error (.typeError "int() argument")
  | .floatT =>
    match v with
    | .int n => .ok (.float n 1)
    | .float num den => .ok (.float num den)
    | .bool b => .ok (.float (cond b 1 0) 1)
    | .str s =>
      match pyStrToInt? s with
      | some n => .ok (.float n 1)
      | none => .error (.valueError "could not convert string to float")
    | _ => .error (.typeError "float() argument")
  | .strT => .ok (.str (pyStrAux fuel false v))
  | .boolT => .ok (.bool (pyTruthy v))
  | .listT =>
    match v with
    | .list xs => .ok (.list xs)
    | .str s => .ok (.list (s.toList.map (fun c => Value.str (String.singleton c))))
    | .obj kvs => .ok (.list (kvs.map (fun kv => Value.str kv.1)))
    | _ => .error (.typeError "object is not iterable")
  | .dictT =>
    match v with
    | .obj kvs => .ok (.obj kvs)
    | _ => .error (.typeError "cannot convert to dict")
  | .noneType => .error (.typeError "NoneType takes no arguments")

/-- Modelled from the spec: the external structural validator
(`jsonschema.validate`, §6).  Only the `type` keyword is checked, which is
the part of JSON-Schema validation the claims exercise; a value violating
the declared type set raises a validation error, and a fragment without a
`type` keyword accepts everything handled here. -/
def jsValidate (v : Value) (s : Schema) : Except PyErr Unit :=
  match s.type_ with
  | none => .ok ()
  | some ts =>
    if ts.any (fun t =>
        match t, v with
        | "integer", .int _ => true
        | "number", .int _ => true
        | "number", .float _ _ => true
        | "string", .str _ => true
        | "boolean", .bool _ => true
        | "array", .list _ => true
        | "object", .obj _ => true
        | "null", .null => true
        | _, _ => false) then .ok ()
    else .error .validationError

/-- Modelled from the spec: the special-key resolver registry
(`data_types.for_key(key).serialize`, potion_client.data_types is not under
src/).  §6 specifies a fallback to pass-through when no resolver is
registered; the source realises that fallback by catching
NotImplementedError, which this model always raises (no claim exercises a
registered serializer). -/
def for_key_serialize (_key : String) (_container : Value) : Except PyErr Value :=
  .error .notImplementedError

/-- Modelled from the spec: `data_types.for_key(key).resolve` (missing from
src/).  §6 names URI-reference expansion as the registered resolver: a
mapping carrying a reference under a "$ref" key resolves to the client-side
Resource it denotes; unregistered keys fall back to pass-through. -/
def for_key_resolve (key : String) (obj : Value) : Value :=
  if key = "$ref" then
    match obj with
    | .obj kvs =>
      match List.lookup "$ref" kvs with
      | some (.str u) => .res u
      | _ => obj
    | _ => obj
  else obj

/-- `obj.get(key, None)`: AttributeError when `obj` is not a dict. -/
def pyGet (obj : Value) (key : String) : Except PyErr Value :=
  match obj with
  | .obj kvs => .ok ((List.lookup key kvs).getD Value.null)
  | _ => .error .attributeError

/-- Python dict assignment `m[k] = v`: replace in place, else append. -/
def dinsertP {α : Type} (k : String) (v : α) : List (String × α) → List (String × α)
  | [] => [(k, v)]
  | (k0, v0) :: rest => if k0 = k then (k0, v) :: rest else (k0, v0) :: dinsertP k v rest

/-- `for element in obj`: Python iteration (lists yield elements, strings
characters, dicts keys; anything else raises TypeError). -/
def pyIterate : Value → Except PyErr (List Value)
  | .list xs => .ok xs
  | .str s => .ok (s.toList.map (fun c => Value.str (String.singleton c)))
  | .obj kvs => .ok (kvs.map (fun kv => Value.str kv.1))
  | _ => .error (.typeError "object is not iterable")

/-- `AttributeMapper.serialize` (routes.py:65-93) together with the OneOf
override (routes.py:134-146) and the Items override (routes.py:159-164).
`asBase = true` renders the `super(...)serialize` calls, which run the base
class body on the same object.  The base body: None becomes `empty_value`;
a dict-typed attribute iterates declared property names (or the input's
keys under `additionalProperties`), delegating "$"-keys to the registry
with pass-through fallback and dropping None-valued keys; otherwise the
value is coerced with `self.types[0]`; finally the result is validated
unless `valid` is falsy.  OneOf: None short-circuits to None; otherwise
each variant is tried in declared order, the first success is returned, and
when all fail the aggregate error is raised only when `self.required`
holds.  Items: a None input returns [] when `self.required` holds,
non-lists fail the `isinstance` assertion, and elements are serialized
through the base body with `self.definition` passed in the `valid`
position (hence validation iff the inner fragment is truthy). -/
def serializeAux : Nat → Bool → AttributeMapper → Value → Bool → Except PyErr Value
  | 0, _, _, _, _ => .error (.typeError "recursion fuel exhausted")
  | fuel+1, asBase, a, obj, valid =>
    match a, asBase with
    | .oneOf ro ap vars, false =>
      if obj.isNull then .ok Value.null
      else
        let attempt : Except (List PyErr) Value := vars.foldl (fun acc v =>
          match acc with
          | Except.ok r => Except.ok r
          | Except.error errs =>
            match serializeAux fuel false v obj valid with
            | Except.ok r => Except.ok r
            | Except.error e => Except.error (errs ++ [e])) (Except.error [])
        match attempt with
        | Except.ok r => .ok r
        | Except.error errs =>
          if requiredF (fuel+1) (.oneOf ro ap vars) then .error (.oneOfException errs)
          else .ok Value.null
    | .items _ _ d _, false =>
      if obj.isNull && requiredF (fuel+1) a then .ok (Value.list [])
      else
        match obj with
        | .list xs =>
          (xs.mapM (fun e => serializeAux fuel true a e (!(Schema.isEmpty d)))).map Value.list
        | _ => .error (.assertionError "Items expects list")
    | _, _ =>
      let ts := typesF (fuel+1) a
      let step1 : Except PyErr Value :=
        if obj.isNull then .ok (empty_valueF (fuel+1) a)
        else if ts.contains PyType.dictT then
          match (if a.additional_properties then
              match obj with
              | .obj kvs => Except.ok (kvs.map Prod.fst)
              | _ => Except.error PyErr.attributeError
            else Except.ok (a.attributesOf.map Prod.fst) : Except PyErr (List String)) with
          | .error e => .error e
          | .ok keys =>
            (keys.foldlM (fun acc (key : String) => do
              let val ←
                if startswithChar key '$' then
                  match for_key_serialize key obj with
                  | .ok v => pure v
                  | .error PyErr.notImplementedError => pyGet obj key
                  | .error e => Except.error e
                else do
                  let v0 ← pyGet obj key
                  match List.lookup key a.attributesOf with
                  | some attr => serializeAux fuel false attr v0 true
                  | none => pure v0
              if val.isNull then pure acc else pure (acc ++ [(key, val)]))
              ([] : List (String × Value))).map Value.obj
        else
          match ts with
          | [] => .error .indexError
          | t :: _ => pyCoerce (fuel+1) t obj
      match step1 with
      | .error e => .error e
      | .ok value =>
        if valid then
          match jsValidate value a.definitionOf with
          | .error e => .error e
          | .ok _ => .ok value
        else .ok value

/-- The source's `list is None` test in `Items.resolve` (routes.py:174):
the name `list` denotes the builtin list type, which is never None, so the
guard is constantly false. -/
def list_is_none : Bool := false

/-- `AttributeMapper.resolve` (routes.py:95-103), the OneOf override
(routes.py:124-132) and the Items override (routes.py:173-177).  The base
body returns `empty_value` for None, delegates to the registry when the
definition carries a `properties` key (using the first declared property
name), and passes everything else through.  OneOf tries each variant and
raises the aggregate unconditionally when all fail.  Items tests
`list is None` (constantly false), then iterates the input, resolving each
element through the base body. -/
def resolveAux : Nat → Bool → AttributeMapper → Value → Except PyErr Value
  | 0, _, _, _ => .error (.typeError "recursion fuel exhausted")
  | fuel+1, asBase, a, obj =>
    match a, asBase with
    | .oneOf _ _ vars, false =>
      let attempt : Except (List PyErr) Value := vars.foldl (fun acc v =>
        match acc with
        | Except.ok r => Except.ok r
        | Except.error errs =>
          match resolveAux fuel false v obj with
          | Except.ok r => Except.ok r
          | Except.error e => Except.error (errs ++ [e])) (Except.error [])
      match attempt with
      | Except.ok r => .ok r
      | Except.error errs => .error (.oneOfException errs)
    | .items _ _ _ _, false =>
      if list_is_none then .ok (empty_valueF (fuel+1) a)
      else do
        let xs ← pyIterate obj
        (xs.mapM (resolveAux fuel true a)).map Value.list
    | _, _ =>
      if obj.isNull then .ok (empty_valueF (fuel+1) a)
      else
        match a.definitionOf.properties with
        | some [] => .error .indexError
        | some (kv :: _) => .ok (for_key_resolve kv.1 obj)
        | none => .ok obj

/-- A Link (routes.py:398-406), reduced to the parts the proxy machinery
reads: the route path, the HTTP method and the input schema (whose
`properties` seed a bound proxy's `_attributes` via `_parse_schema`). -/
structure Link where
  path : String
  method : String
  schema : Schema

/-- A proxy's binding target: a resource type or a resource instance
(routes.py binds proxies to either; the binding is only carried along by the
code paths embedded here, so a tag suffices). -/
inductive Binding where
  | rtype (name : String) : Binding
  | inst (name : String) : Binding
deriving Repr, DecidableEq

/-- `LinkProxy` (routes.py:198-268): a link, a binding, the `_attributes`
parsed from the link's input schema, and the accumulated argument dict
`_kwargs`. -/
structure LinkProxy where
  link : Link
  binding : Binding
  attributes : List (String × AttributeMapper)
  kwargs : List (String × Value)

/-- `LinkProxy._parse_schema` (routes.py:232-237): one AttributeMapper per
property of the link's input schema. -/
def parse_schema_attrs (fuel : Nat) (l : Link) : List (String × AttributeMapper) :=
  (l.schema.properties.getD []).map (fun ns => (ns.1, mkAttr fuel ns.2))

/-- The `new_proxy` closure returned by `LinkProxy._proxy(prop)`
(routes.py:243-263), called with a single positional argument.  The source
aliases the dict: `new_kwargs = self._kwargs` followed by
`new_kwargs[prop] = val` mutates the original proxy's `_kwargs` in place;
the new proxy then receives a fresh copy through `**new_kwargs`.  The result
is the pair (original proxy after the call, new proxy). -/
def proxy_call (fuel : Nat) (p : LinkProxy) (prop : String) (val : Value) :
    Except PyErr (LinkProxy × LinkProxy) := do
  let v ← match List.lookup prop p.attributes with
          | some attr => serializeAux fuel false attr val true
          | none => pure val
  let kw := dinsertP prop v p.kwargs
  .ok ({ p with kwargs := kw },
    { link := p.link, binding := p.binding, attributes := p.attributes, kwargs := kw })

/-- `ListLinkProxy` (routes.py:287-342): adds the lazy collection cache, the
total count and the discovered relation links.  A discovered link is stored
as the kwargs of the (unfetched) List proxy built for it in `_create_link`. -/
structure ListLinkProxy where
  link : Link
  binding : Binding
  attributes : List (String × AttributeMapper)
  kwargs : List (String × Value)
  collection : Option (List Value)
  total : Int
  links : List (String × List (String × Value))

/-- A fresh `ListLinkProxy(link=..., binding=..., **kwargs)`: empty cache,
zero total, no discovered links, attributes parsed from the link schema. -/
def newListProxy (fuel : Nat) (l : Link) (b : Binding) (kw : List (String × Value)) :
    ListLinkProxy :=
  { link := l, binding := b, attributes := parse_schema_attrs fuel l, kwargs := kw,
    collection := none, total := 0, links := [] }

/-- An HTTP response as the List handler consumes it: the optional
X-Total-Count header, the parsed JSON array body, and the relation links
with the query parameters of each relation URL already extracted (the
values are strings, as `utils.params_to_dictionary` yields them from the
URL). -/
structure Response where
  count_header : Option Int
  body : List Value
  rlinks : List (String × List (String × String))

/-- Modelled from the spec: the HTTP transport collaborator (§6).  A server
maps the query parameters of a request (the proxy's accumulated kwargs) to
a response. -/
def Server : Type := List (String × Value) → Response

/-- `LinkProxy.serialize_attribute_value` (routes.py:206-209). -/
def serialize_attribute_value (fuel : Nat) (attrs : List (String × AttributeMapper))
    (key : String) (v : Value) : Except PyErr Value :=
  match List.lookup key attrs with
  | some attr => serializeAux fuel false attr v true
  | none => .ok v

/-- `ListLinkProxy.handler` + `_create_link` (routes.py:294-313).  When the
count header is present the total is taken from it, the "self" relation is
dropped, and each remaining relation becomes a stored List-proxy kwargs
dict; `_create_link` aliases `new_kwargs = self._kwargs`, so the updates
accumulate into the proxy's own kwargs across relations.  A missing header
raises KeyError, caught to fall back to the body length (in which case no
links are discovered).  The handler returns the parsed body. -/
def handler (fuel : Nat) (p : ListLinkProxy) (res : Response) :
    Except PyErr (ListLinkProxy × List Value) :=
  match res.count_header with
  | some n =>
    let rl := res.rlinks.filter (fun nl => nl.1 != "self")
    match rl.foldlM (fun (st : List (String × Value) × List (String × List (String × Value)))
        nl => do
        let kw ← nl.2.foldlM (fun kw (pv : String × String) => do
            let v ← serialize_attribute_value fuel p.attributes pv.1 (Value.str pv.2)
            pure (dinsertP pv.1 v kw)) st.1
        pure (kw, dinsertP nl.1 kw st.2)) (p.kwargs, p.links) with
    | .error e => .error e
    | .ok st => .ok ({ p with total := n, kwargs := st.1, links := st.2 }, res.body)
  | none => .ok ({ p with total := (res.body.length : Int) }, res.body)

/-- `ListLinkProxy._resolve` via `Link.__call__` (routes.py:265-268,
428-434): issue the request with the accumulated kwargs as query
parameters, run the handler, and cache the body in `_collection`.  The
second component logs the request's parameters, so fetches can be
counted. -/
def resolveFetch (fuel : Nat) (srv : Server) (p : ListLinkProxy) :
    Except PyErr (ListLinkProxy × List (List (String × Value))) := do
  let res := srv p.kwargs
  let (p2, body) ← handler fuel p res
  .ok ({ p2 with collection := some body }, [p.kwargs])

/-- The `if self._collection is None: self._collection = self._resolve()`
pattern shared by `slice_size`, `__len__` and `__getitem__`
(routes.py:318-332). -/
def ensure_fetched (fuel : Nat) (srv : Server) (p : ListLinkProxy) :
    Except PyErr (ListLinkProxy × List (List (String × Value))) :=
  match p.collection with
  | some _ => .ok (p, [])
  | none => resolveFetch fuel srv p

/-- A Python number: int or float.  Floats are carried as exact, possibly
unnormalised fractions `num/den` of integers; the only operation producing
them here is `/`, whose IEEE result on the small integers in play is
approximated by the exact quotient.  None of the stated facts depend on
binary rounding: they only use that a quotient like 23/10 is not an
integer. -/
inductive PyNum where
  | i (n : Int) : PyNum
  | f (num den : Int) : PyNum
deriving Repr, DecidableEq

/-- The exact rational a PyNum denotes (used in theorem statements only). -/
def PyNum.toQ : PyNum → ℚ
  | .i n => (n : ℚ)
  | .f num den => (num : ℚ) / (den : ℚ)

def PyNum.frac : PyNum → Int × Int
  | .i n => (n, 1)
  | .f num den => (num, den)

/-- Python 3 `/`: true division, always producing a float. -/
def pydiv (a b : PyNum) : PyNum :=
  .f (a.frac.1 * b.frac.2) (a.frac.2 * b.frac.1)

def pymul (a b : PyNum) : PyNum :=
  match a, b with
  | .i m, .i n => .i (m * n)
  | _, _ => .f (a.frac.1 * b.frac.1) (a.frac.2 * b.frac.2)

def pysub (a b : PyNum) : PyNum :=
  match a, b with
  | .i m, .i n => .i (m - n)
  | _, _ => .f (a.frac.1 * b.frac.2 - b.frac.1 * a.frac.2) (a.frac.2 * b.frac.2)

/-- `a > t` for an integer `t` (the `index > self._total` comparison).  A
fraction with zero denominator cannot arise on the executed paths (it would
require a division by zero, which Python rejects earlier). -/
def PyNum.gtInt : PyNum → Int → Bool
  | .i n, t => t < n
  | .f num den, t =>
    if 0 < den then t * den < num
    else if den < 0 then num < t * den
    else false

def numToValue : PyNum → Value
  | .i n => .int n
  | .f num den => .float num den

def valueToNum : Value → Except PyErr PyNum
  | .int n => .ok (.i n)
  | .float num den => .ok (.f num den)
  | .bool b => .ok (.i (cond b 1 0))
  | _ => .error (.typeError "unsupported operand type")

/-- `lst[n]` with Python semantics: negative indices count from the end,
out-of-range raises IndexError. -/
def pyIndex (xs : List Value) (n : Int) : Except PyErr Value :=
  let m := if n < 0 then n + (xs.length : Int) else n
  if 0 ≤ m then
    match xs.get? m.toNat with
    | some v => .ok v
    | none => .error .indexError
  else .error .indexError

/-- Modelled from the spec: `utils.evaluate_ref` (potion_client.utils is not
under src/), the external reference-resolution collaborator of §4.3 and §6:
it dereferences the element's "$uri" reference through the client into a
client-side Resource object. -/
def evaluate_ref (uri : Value) (item : Value) : Value :=
  match uri with
  | .str u => .res u
  | _ => item

/-- `ListLinkProxy.__getitem__` (routes.py:330-342).  After the lazy fetch:
when the index exceeds `_total`, read `per_page` from the kwargs, compute
`page = index / per_page` (Python 3 true division, hence a float), mutate
the aliased kwargs with it, build a fresh List proxy and recurse with
`index - page * per_page`; otherwise resolve `_collection[index]["$uri"]`
through `evaluate_ref`.  A float index into the cached list raises
TypeError, exactly as in Python 3.  Returns the value, the (possibly
mutated) proxy, and the log of fetches performed. -/
def getitem (fuel : Nat) (srv : Server) (p : ListLinkProxy) (index : PyNum) :
    Except PyErr (Value × ListLinkProxy × List (List (String × Value))) :=
  match fuel with
  | 0 => .error (.typeError "recursion fuel exhausted")
  | fuel+1 => do
    let (p, log1) ← ensure_fetched fuel srv p
    if index.gtInt p.total then do
      let pp ← match List.lookup "per_page" p.kwargs with
               | some v => pure v
               | none => Except.error (PyErr.keyError "per_page")
      let ppn ← valueToNum pp
      let page := pydiv index ppn
      let kw := dinsertP "page" (numToValue page) p.kwargs
      let p := { p with kwargs := kw }
      let link := newListProxy fuel p.link p.binding kw
      let (v, _, log2) ← getitem fuel srv link (pysub index (pymul page ppn))
      .ok (v, p, log1 ++ log2)
    else
      match p.collection with
      | none => .error .indexError
      | some coll =>
        match index with
        | .f _ _ => .error (.typeError "list indices must be integers or slices, not float")
        | .i n => do
          let item ← pyIndex coll n
          let uri ← match item with
                    | .obj kvs =>
                      match List.lookup "$uri" kvs with
                      | some u => pure u
                      | none => Except.error (PyErr.keyError "$uri")
                    | _ => Except.error (PyErr.typeError "value is not subscriptable")
          .ok (evaluate_ref uri item, p, log1)

/-- `ListLinkIterator` state (routes.py:345-354): the current page proxy,
the local cursor, and the total captured by `len()` at construction. -/
structure ListLinkIterator where
  slice : ListLinkProxy
  pointer : Nat
  total : Int

/-- `ListLinkIterator.__init__` (routes.py:347-354): start from the "first"
relation if one has been discovered on the proxy, else from the proxy
itself; `len()` then triggers the lazy fetch and records the total. -/
def iter_init (fuel : Nat) (srv : Server) (p : ListLinkProxy) :
    Except PyErr (ListLinkIterator × List (List (String × Value))) := do
  let slice0 := match List.lookup "first" p.links with
                | some kw => newListProxy fuel p.link p.binding kw
                | none => p
  let (slice1, log) ← ensure_fetched fuel srv slice0
  .ok ({ slice := slice1, pointer := 0, total := slice1.total }, log)

/-- `ListLinkIterator.__next__` (routes.py:356-366): when the cursor has
exhausted `slice_size`, switch to the "next" relation (resetting the cursor
to zero) or stop; then index the current page at the cursor and advance.
`.ok none` renders StopIteration. -/
def iter_next (fuel : Nat) (srv : Server) (st : ListLinkIterator) :
    Except PyErr (Option (Value × ListLinkIterator × List (List (String × Value)))) := do
  let (p, log1) ← ensure_fetched fuel srv st.slice
  let sz := (p.collection.getD []).length
  if st.pointer ≥ sz then
    match List.lookup "next" p.links with
    | some kw => do
      let p2 := newListProxy fuel p.link p.binding kw
      let (v, p2f, log2) ← getitem fuel srv p2 (.i 0)
      .ok (some (v, { slice := p2f, pointer := 1, total := st.total }, log1 ++ log2))
    | none => .ok none
  else do
    let (v, pf, log2) ← getitem fuel srv p (.i st.pointer)
    .ok (some (v, { slice := pf, pointer := st.pointer + 1, total := st.total }, log1 ++ log2))

/-- Drive the iterator to exhaustion (bounded by `steps`): the yielded
elements, the accumulated fetch log, and whether StopIteration was
reached. -/
def iter_run (fuel : Nat) (srv : Server) :
    Nat → ListLinkIterator → (List Value × List (List (String × Value)) × Bool)
  | 0, _ => ([], [], false)
  | steps+1, st =>
    match iter_next fuel srv st with
    | .ok none => ([], [], true)
    | .ok (some (v, st2, log)) =>
      let r := iter_run fuel srv steps st2
      (v :: r.1, log ++ r.2.1, r.2.2)
    | .error _ => ([], [], false)

/-- End-to-end iteration over a List proxy (`for x in proxy`): build the
iterator, then drain it. -/
def run_iteration (fuel steps : Nat) (srv : Server) (p : ListLinkProxy) :
    Except PyErr (List Value × List (List (String × Value)) × Bool) := do
  let (st, lg) ← iter_init fuel srv p
  let r := iter_run fuel srv steps st
  .ok (r.1, lg ++ r.2.1, r.2.2)

/-- A Resource instance (routes.py:485-587): lazy identity `_id`, the raw
instance cache `_instance`, and the type's attribute registry. -/
structure ResourceM where
  _id : Option Value
  _instance : Option (List (String × Value))
  attributes : List (String × AttributeMapper)

/-- Split a character list at slashes (structural helper for `parse_uri`). -/
def splitSlashAux : List Char → List Char → List (List Char)
  | [], cur => [cur.reverse]
  | c :: rest, cur =>
    if c = '/' then cur.reverse :: splitSlashAux rest []
    else splitSlashAux rest (c :: cur)

/-- Modelled from the spec: `utils.parse_uri` (potion_client.utils is not
under src/): §3 derives the identity from a uri-like field; the id is the
URI's last path segment. -/
def parse_uri (v : Value) : Value :=
  match v with
  | .str s => .str ⟨(splitSlashAux s.data []).getLastD []⟩
  | _ => v

/-- The `Resource.id` property (routes.py:570-575): lazily derive `_id` from
the "$uri" field of a truthy instance cache. -/
def resource_id (r : ResourceM) : Option Value × ResourceM :=
  match r._id with
  | some v => (some v, r)
  | none =>
    match r._instance with
    | some m =>
      if !m.isEmpty && (List.lookup "$uri" m).isSome then
        let idv := parse_uri ((List.lookup "$uri" m).getD Value.null)
        (some idv, { r with _id := some idv })
      else (none, r)
    | none => (none, r)

/-- `Resource.valid_instance` (routes.py:509-519): for each attribute key in
declared order, take the raw cache value (defaulting to the attribute's
`empty_value` when the key is absent) and keep it only when the attribute is
writable and the value is not None.  An absent cache raises AttributeError
(`None.get`). -/
def valid_instance (fuel : Nat) (r : ResourceM) : Except PyErr (List (String × Value)) :=
  match r._instance with
  | none => .error .attributeError
  | some m =>
    .ok (r.attributes.foldl (fun acc ka =>
      let value := (List.lookup ka.1 m).getD (empty_valueF fuel ka.2)
      if !ka.2.read_only && !value.isNull then acc ++ [(ka.1, value)] else acc) [])

/-- `Resource.save` (routes.py:559-565) through `ObjectLinkProxy.__call__`,
`Link.__call__` and `Link._process_args` (routes.py:428-464): dispatch on
`self.id`, send `valid_instance` as the request body over the "create" or
"update" link, and replace the raw cache with the response.  The transport
is a function from body to response; the result also reports which link was
invoked and with what body. -/
def save (fuel : Nat)
    (create_link update_link : List (String × Value) → List (String × Value))
    (r : ResourceM) : Except PyErr (ResourceM × String × List (String × Value)) := do
  let (idv, r) := resource_id r
  let body ← valid_instance fuel r
  match idv with
  | none => .ok ({ r with _instance := some (create_link body) }, "create", body)
  | some _ => .ok ({ r with _instance := some (update_link body) }, "update", body)

/-- `Resource._get_property` (routes.py:531-538) with the lazy `instance`
property (routes.py:521-525, 555-557): ensure the raw cache is loaded
(fetching through the "self" link when absent), read the raw field
(substituting the attribute's empty value when it is missing or None),
write that raw value back into the cache, and return the attribute's
resolved value. -/
def get_property (fuel : Nat) (self_link : Unit → List (String × Value))
    (r : ResourceM) (name : String) : Except PyErr (ResourceM × Value) := do
  let attr ← match List.lookup name r.attributes with
             | some a => pure a
             | none => Except.error (PyErr.keyError name)
  let r := match r._instance with
           | some _ => r
           | none => { r with _instance := some (self_link ()) }
  let m := r._instance.getD []
  let raw0 := (List.lookup name m).getD Value.null
  let raw := if raw0.isNull then empty_valueF fuel attr else raw0
  let r := { r with _instance := some (dinsertP name raw m) }
  let v ← resolveAux fuel false attr raw
  .ok (r, v)

/-! Concrete schema fragments and attribute mappers used by the theorems. -/

def intSchema : Schema := .mk (some ["integer"]) none none none none none

def strSchema : Schema := .mk (some ["string"]) none none none none none

def nullSchema : Schema := .mk (some ["null"]) none none none none none

def roIntSchema : Schema := .mk (some ["integer"]) none none none (some true) none

def listIntSchema : Schema := .mk (some ["array"]) none (some intSchema) none none none

def intOrNullSchema : Schema := .mk (some ["integer", "null"]) none none none none none

def listIntOrNullSchema : Schema :=
  .mk (some ["array"]) none (some intOrNullSchema) none none none

def oneOfStrIntSchema : Schema := .mk none none none (some [strSchema, intSchema]) none none

def oneOfIntSchema : Schema := .mk none none none (some [intSchema]) none none

def oneOfIntNullSchema : Schema := .mk none none none (some [intSchema, nullSchema]) none none

def ownerSchema : Schema :=
  .mk (some ["object"]) (some [("$ref", strSchema)]) none none none none

def intAttr : AttributeMapper := mkAttr 10 intSchema

def roIntAttr : AttributeMapper := mkAttr 10 roIntSchema

def itemsIntAttr : AttributeMapper := mkAttr 10 listIntSchema

def itemsIntOrNullAttr : AttributeMapper := mkAttr 10 listIntOrNullSchema

def oneOfStrIntAttr : AttributeMapper := mkAttr 10 oneOfStrIntSchema

def oneOfIntAttr : AttributeMapper := mkAttr 10 oneOfIntSchema

def oneOfIntNullAttr : AttributeMapper := mkAttr 10 oneOfIntNullSchema

def ownerAttr : AttributeMapper := mkAttr 10 ownerSchema

/-! Fixtures for the List-proxy scenarios: a paginated collection of 25
items served 10 per page, the count reported through the count header, with
"self"/"first"/"next" relation links ("next" absent from the last page). -/

def pageSchema : Schema :=
  .mk none (some [("page", intSchema), ("per_page", intSchema)]) none none none none

def link4 : Link := { path := "/item", method := "GET", schema := pageSchema }

def item_ (k : Nat) : Value := .obj [("$uri", .str ("/item/" ++ natRepr k))]

def pageBody (startIdx count : Nat) : List Value :=
  (List.range count).map (fun j => item_ (startIdx + j))

def resp1 : Response :=
  { count_header := some 25, body := pageBody 0 10,
    rlinks := [("self", [("page", "1")]), ("first", [("page", "1")]),
      ("next", [("page", "2")])] }

def resp2 : Response :=
  { count_header := some 25, body := pageBody 10 10,
    rlinks := [("self", [("page", "2")]), ("first", [("page", "1")]),
      ("next", [("page", "3")])] }

def resp3 : Response :=
  { count_header := some 25, body := pageBody 20 5,
    rlinks := [("self", [("page", "3")]), ("first", [("page", "1")])] }

def srv25 : Server := fun kw =>
  match List.lookup "page" kw with
  | some (.int 2) => resp2
  | some (.int 3) => resp3
  | _ => resp1

def p4 : ListLinkProxy := newListProxy 10 link4 (.rtype "Item") [("per_page", .int 10)]

/-- The proxy `p4` after its lazy fetch: collection cached, relation links
("first", "next") discovered. -/
def p4f : ListLinkProxy :=
  match ensure_fetched 12 srv25 p4 with
  | .ok pr => pr.1
  | .error _ => p4

/-- A server reporting total 20 with a 10-item page, for exercising the
`index > total` branch of `__getitem__`. -/
def resp20 : Response := { count_header := some 20, body := pageBody 0 10, rlinks := [] }

def srv20 : Server := fun _ => resp20

def p1c : ListLinkProxy := newListProxy 10 link4 (.rtype "Item") [("per_page", .int 10)]

def p5 : LinkProxy :=
  { link := link4, binding := .rtype "Foo", attributes := parse_schema_attrs 10 link4,
    kwargs := [] }

def p9 : ListLinkProxy := newListProxy 10 link4 (.rtype "Item") [("per_page", .int 10)]

def resNoHdr : Response :=
  { count_header := none, body := [item_ 0, item_ 1],
    rlinks := [("next", [("page", "2")])] }

def resHdr : Response :=
  { count_header := some 25, body := [item_ 0, item_ 1],
    rlinks := [("self", [("page", "1")]), ("next", [("page", "2")])] }

/-! Resource fixtures. -/

def rA : ResourceM := { _id := none, _instance := some [], attributes := [("a", intAttr)] }

def rB : ResourceM :=
  { _id := none, _instance := some [("a", Value.int 1), ("ro", Value.int 9)],
    attributes := [("a", intAttr), ("ro", roIntAttr), ("tags", itemsIntAttr)] }

def rC : ResourceM := { rB with _id := some (Value.str "7") }

def fake_create (b : List (String × Value)) : List (String × Value) :=
  dinsertP "$uri" (Value.str "/a/1") b

def fake_update (b : List (String × Value)) : List (String × Value) :=
  dinsertP "$uri" (Value.str "/a/7") b

def self_link7 : Unit → List (String × Value) := fun _ => [("a", Value.int 7)]

def r7a : ResourceM :=
  { _id := some (Value.str "1"), _instance := none, attributes := [("a", intAttr)] }

def r7b : ResourceM :=
  { _id := some (Value.str "1"), _instance := some [],
    attributes := [("tags", itemsIntAttr)] }

def r7c : ResourceM :=
  { _id := some (Value.str "1"),
    _instance := some [("owner", Value.obj [("$ref", Value.str "/u/1")])],
    attributes := [("owner", ownerAttr)] }

/-! Post-state fixtures named for use in theorem statements. -/

def rB_created : ResourceM :=
  { rB with
      _instance := some [("a", Value.int 1), ("tags", Value.list []),
        ("$uri", Value.str "/a/1")] }

def rC_updated : ResourceM :=
  { rC with
      _instance := some [("a", Value.int 1), ("tags", Value.list []),
        ("$uri", Value.str "/a/7")] }

def r7a_after : ResourceM := { r7a with _instance := some [("a", Value.int 7)] }

def r7b_after : ResourceM := { r7b with _instance := some [("tags", Value.list [])] }

def r7c_after : ResourceM :=
  { r7c with _instance := some [("owner", Value.obj [("$ref", Value.str "/u/1")])] }

def p5_after : LinkProxy := { p5 with kwargs := [("per_page", Value.int 10)] }

def p9_total2 : ListLinkProxy := { p9 with total := 2 }

def p9_hdr_after : ListLinkProxy :=
  { p9 with
      total := 25,
      kwargs := [("per_page", Value.int 10), ("page", Value.int 2)],
      links := [("next", [("per_page", Value.int 10), ("page", Value.int 2)])] }

/-- The 25 resolved elements the paginated iteration yields, in order. -/
def c4_elems : List Value :=
  (List.range 25).map (fun k => Value.res ("/item/" ++ natRepr k))

/-- The fetch log when iteration starts at the proxy itself (page 1 implied
by the absence of a `page` argument). -/
def c4_fetches_a : List (List (String × Value)) :=
  [[("per_page", Value.int 10)],
   [("per_page", Value.int 10), ("page", Value.int 2)],
   [("per_page", Value.int 10), ("page", Value.int 3)]]

/-- The fetch log when iteration starts at the discovered "first" relation. -/
def c4_fetches_b : List (List (String × Value)) :=
  [[("per_page", Value.int 10), ("page", Value.int 1)],
   [("per_page", Value.int 10), ("page", Value.int 2)],
   [("per_page", Value.int 10), ("page", Value.int 3)]]

/-! Theorems settling the claims. -/

/-- C1: the claim says `__getitem__(23)` with `per_page = 10` computes target
page 2 and local offset 3.  The code (routes.py:336) computes
`page = index / per_page` with Python 3 true division: the page is the float
23/10 = 2.3, not 2; the recursive index `index - page * per_page` is the
float 0.0, not 3; and the recursion ends by indexing the cached list with a
float, which raises TypeError — on a proxy over a server reporting total 20,
`__getitem__(23)` therefore raises instead of fetching page 2. -/
theorem c1_true_division_page :
    pydiv (PyNum.i 23) (PyNum.i 10) = PyNum.f 23 10 ∧
    (PyNum.f 23 10).toQ ≠ (PyNum.i 2).toQ ∧
    pysub (PyNum.i 23) (pymul (pydiv (PyNum.i 23) (PyNum.i 10)) (PyNum.i 10)) =
      PyNum.f 0 10 ∧
    (PyNum.f 0 10).toQ ≠ (PyNum.i 3).toQ ∧
    getitem 12 srv20 p1c (PyNum.i 23) =
      Except.error (PyErr.typeError "list indices must be integers or slices, not float") :=
  ⟨rfl, by norm_num [PyNum.toQ], rfl, by norm_num [PyNum.toQ], rfl⟩

/-- C2 counterexample: on the OneOf of [string-schema, integer-schema], the
claim says `serialize([1,2])` matches neither variant and raises an
aggregate error with two causes.  In the code the string variant coerces any
value with `str()` (routes.py:90), so it succeeds on [1,2] and serialize
returns the string "[1, 2]" — no error is raised at all. -/
theorem c2_counterexample :
    serializeAux 12 false oneOfStrIntAttr (Value.list [Value.int 1, Value.int 2]) true =
      Except.ok (Value.str "[1, 2]") :=
  rfl

/-- C2 amended: OneOf.serialize attempts each variant in declared order and
returns the first success, where a variant's serialize coerces through the
variant's primitive type — so a leading string variant succeeds on any
input (including [1,2] and 4).  When every variant fails, the aggregate
error carrying one cause per variant is raised only when the union's type
set includes the None type (`self.required`, routes.py:57-59,145-146),
i.e. only when the union is nullable; a non-nullable union returns None
silently. -/
theorem c2_amended :
    serializeAux 12 false oneOfStrIntAttr (Value.str "x") true = Except.ok (Value.str "x") ∧
    serializeAux 12 false oneOfStrIntAttr (Value.int 4) true = Except.ok (Value.str "4") ∧
    serializeAux 12 false oneOfStrIntAttr (Value.list [Value.int 1, Value.int 2]) true =
      Except.ok (Value.str "[1, 2]") ∧
    serializeAux 12 false oneOfIntAttr (Value.list [Value.int 1, Value.int 2]) true =
      Except.ok Value.null ∧
    requiredF 12 oneOfIntAttr = false ∧
    serializeAux 12 false oneOfIntNullAttr (Value.list [Value.int 1, Value.int 2]) true =
      Except.error (PyErr.oneOfException
        [PyErr.typeError "int() argument", PyErr.typeError "NoneType takes no arguments"]) ∧
    requiredF 12 oneOfIntNullAttr = true :=
  ⟨rfl, rfl, rfl, rfl, rfl, rfl, rfl⟩

/-- C3 counterexample: for the list-of-integer attribute the claim says
`serialize(null)` yields the attribute's `empty_value` ([]).  In the code
the None guard (routes.py:160) fires only when `self.required` holds, i.e.
when the element type set includes None — which it does not here — so
`serialize(null)` falls through to the `isinstance(iterable, list)`
assertion and raises. -/
theorem c3_counterexample :
    serializeAux 12 false itemsIntAttr Value.null true =
      Except.error (PyErr.assertionError "Items expects list") ∧
    empty_valueF 12 itemsIntAttr = Value.list [] ∧
    serializeAux 12 false itemsIntAttr Value.null true ≠
      Except.ok (empty_valueF 12 itemsIntAttr) :=
  ⟨rfl, rfl, fun h => Except.noConfusion h⟩

/-- C3 amended: for a List attribute of integers, `serialize([1,2,3])`
returns [1,2,3], and `serialize(null)` — like any non-list input — fails
with the type-assertion error.  The None guard fires only when the element
type set includes None, and it then returns [], which differs from that
attribute's `empty_value` (None). -/
theorem c3_amended :
    serializeAux 12 false itemsIntAttr
        (Value.list [Value.int 1, Value.int 2, Value.int 3]) true =
      Except.ok (Value.list [Value.int 1, Value.int 2, Value.int 3]) ∧
    serializeAux 12 false itemsIntAttr Value.null true =
      Except.error (PyErr.assertionError "Items expects list") ∧
    serializeAux 12 false itemsIntAttr (Value.int 5) true =
      Except.error (PyErr.assertionError "Items expects list") ∧
    serializeAux 12 false itemsIntOrNullAttr Value.null true = Except.ok (Value.list []) ∧
    empty_valueF 12 itemsIntOrNullAttr = Value.null :=
  ⟨rfl, rfl, rfl, rfl, rfl⟩

/-- C4: iterating a List proxy over a 25-element collection served 10 per
page (count header 25, "next" on pages 1-2 only) yields exactly the 25
elements in order, across exactly 3 page fetches with strictly increasing
page numbers, each page fetched once; the iterator starts at the proxy
itself when no "first" relation has been discovered (`p4`), and at the
"first" relation once one has been (`p4f`, the same proxy after its lazy
fetch). -/
theorem c4_pagination :
    run_iteration 12 30 srv25 p4 = Except.ok (c4_elems, c4_fetches_a, true) ∧
    List.lookup "first" p4.links = none ∧
    List.lookup "first" p4f.links =
      some [("per_page", Value.int 10), ("page", Value.int 1)] ∧
    run_iteration 12 30 srv25 p4f = Except.ok (c4_elems, c4_fetches_b, true) :=
  ⟨rfl, rfl, rfl, rfl⟩

/-- C5: the claim says a per-property accessor returns a new proxy with the
updated argument map while the original proxy is left unchanged.  The code
(routes.py:246,258) aliases `new_kwargs = self._kwargs` and assigns into it,
so the accessor call mutates the original proxy's accumulated-argument map
as well: calling the accessor for "per_page" on a proxy with empty kwargs
leaves the original holding `per_page = 10`.  The new proxy does carry the
link and binding forward unchanged. -/
theorem c5_kwargs_aliasing :
    p5.kwargs = [] ∧
    proxy_call 12 p5 "per_page" (Value.int 10) = Except.ok (p5_after, p5_after) ∧
    p5_after.kwargs = [("per_page", Value.int 10)] ∧
    p5_after.link = p5.link ∧
    p5_after.binding = p5.binding :=
  ⟨rfl, rfl, rfl, rfl, rfl⟩

/-- C6 counterexample: the claim says `validInstance` substitutes each
attribute's empty value for unset fields.  For a resource whose only
attribute "a" is a writable integer scalar (empty value None) and whose raw
cache is empty, `valid_instance` is the empty mapping — the unset field is
dropped rather than appearing with its substituted empty value, because the
code (routes.py:516) discards any field whose value is None. -/
theorem c6_counterexample :
    valid_instance 12 rA = Except.ok [] ∧
    empty_valueF 12 intAttr = Value.null ∧
    rA.attributes = [("a", intAttr)] ∧
    intAttr.read_only = false :=
  ⟨rfl, rfl, rfl, rfl⟩

/-- C6 amended: `save()` on a resource with no known identity invokes the
"create" link — with a known identity, the "update" link — with a body equal
to `validInstance`, and the raw cache is replaced with the response.
`validInstance` contains only writable fields, substitutes each attribute's
empty value for unset fields, and then omits every field whose (possibly
substituted) value is None: on `rB`, the writable set field "a" and the
unset list field "tags" (empty value []) are sent, the read-only field "ro"
is dropped. -/
theorem c6_amended :
    save 12 fake_create fake_update rB =
      Except.ok (rB_created, "create", [("a", Value.int 1), ("tags", Value.list [])]) ∧
    save 12 fake_create fake_update rC =
      Except.ok (rC_updated, "update", [("a", Value.int 1), ("tags", Value.list [])]) ∧
    valid_instance 12 rB = Except.ok [("a", Value.int 1), ("tags", Value.list [])] :=
  ⟨rfl, rfl, rfl⟩

/-- C7 counterexample: the claim says the generated getter writes the
*resolved* value back into the raw cache.  The code (routes.py:537-538)
writes the raw (empty-value-substituted) field back and only then resolves:
for an object attribute whose "$ref" reference resolves to a Resource, the
cache retains the raw reference mapping while the getter returns the
resolved Resource — two different values. -/
theorem c7_counterexample :
    get_property 12 self_link7 r7c "owner" = Except.ok (r7c_after, Value.res "/u/1") ∧
    r7c_after._instance = some [("owner", Value.obj [("$ref", Value.str "/u/1")])] ∧
    Value.obj [("$ref", Value.str "/u/1")] ≠ Value.res "/u/1" :=
  ⟨rfl, rfl, fun h => Value.noConfusion h⟩

/-- C7 amended: the generated getter ensures the raw instance data is loaded
(fetching via the "self" link when absent: `r7a`), reads the raw field
substituting the attribute's empty value when missing (`r7b`, whose unset
list field becomes []), writes that raw (substituted) value back into the
raw cache, and returns the attribute's resolved value (`r7c`, where the
resolved Resource is returned while the cache keeps the raw reference). -/
theorem c7_amended :
    get_property 12 self_link7 r7a "a" = Except.ok (r7a_after, Value.int 7) ∧
    r7a._instance = none ∧
    get_property 12 self_link7 r7b "tags" = Except.ok (r7b_after, Value.list []) ∧
    empty_valueF 12 itemsIntAttr = Value.list [] ∧
    get_property 12 self_link7 r7c "owner" = Except.ok (r7c_after, Value.res "/u/1") :=
  ⟨rfl, rfl, rfl, rfl, rfl⟩

/-- C8 counterexample: the claim says a read-only scalar attribute's
`serialize(null)` returns None without a validation error.  The code
computes the empty value None (routes.py:66-67,107-108) but then validates
it against the attribute's own schema fragment (routes.py:91-92), and None
violates `type: integer`, so a validation error is raised. -/
theorem c8_counterexample :
    serializeAux 12 false roIntAttr Value.null true = Except.error PyErr.validationError ∧
    empty_valueF 12 roIntAttr = Value.null :=
  ⟨rfl, rfl⟩

/-- C8 amended: a Scalar `type: integer` attribute serializes 5 to 5.  A
read-only scalar's `serialize(null)` computes the empty value None but the
final validation rejects None against the integer schema; only with
validation suppressed (`valid = False`) does it return None without
error. -/
theorem c8_amended :
    serializeAux 12 false intAttr (Value.int 5) true = Except.ok (Value.int 5) ∧
    serializeAux 12 false roIntAttr Value.null true = Except.error PyErr.validationError ∧
    serializeAux 12 false roIntAttr Value.null false = Except.ok Value.null :=
  ⟨rfl, rfl, rfl⟩

/-- C9 counterexample: the claim says the handler discovers the response's
relation links for every list-link response.  In the code the link
discovery sits inside the `try` block that reads the count header
(routes.py:295-300): on a response with no count header but with a "next"
relation, the KeyError fallback sets the total to the body length and no
link is discovered. -/
theorem c9_counterexample :
    resNoHdr.rlinks = [("next", [("page", "2")])] ∧
    handler 12 p9 resNoHdr = Except.ok (p9_total2, resNoHdr.body) ∧
    p9_total2.links = [] :=
  ⟨rfl, rfl, rfl⟩

/-- C9 amended: when the count header is present the handler sets the total
from it and discovers the relation links excluding "self", exposing each as
a List-proxy argument map seeded from the current kwargs updated with the
relation URL's query parameters (serialized through the matching declared
property — here "page=2" becomes the integer 2); when the header is absent
it falls back to the parsed array's length and discovers no links. -/
theorem c9_amended :
    (∀ (p : ListLinkProxy) (res : Response) (fuel : Nat), res.count_header = none →
      handler fuel p res =
        Except.ok ({ p with total := (res.body.length : Int) }, res.body)) ∧
    handler 12 p9 resHdr = Except.ok (p9_hdr_after, resHdr.body) :=
  ⟨fun p res fuel h => by
      obtain ⟨ch, body, rl⟩ := res
      cases h
      rfl,
    rfl⟩

/-- C9 witness: the general no-header clause of `c9_amended` applied at a
concrete proxy and response. -/
theorem c9_amended_witness :
    handler 12 p9 resNoHdr = Except.ok (p9_total2, resNoHdr.body) :=
  c9_amended.1 p9 resNoHdr 12 rfl

/-- C10: in `Items.resolve` (routes.py:173-177) the guard compares the
builtin `list` type with None, which is constantly false, so resolving a
None input never returns the attribute's empty value: it always reaches the
element iteration, and iterating None raises TypeError — for every Items
attribute mapper. -/
theorem c10_dead_null_guard (fuel : Nat) (ro ap : Bool) (d : Schema)
    (attrs : List (String × AttributeMapper)) :
    list_is_none = false ∧
    resolveAux (fuel+1) false (AttributeMapper.items ro ap d attrs) Value.null =
      Except.error (PyErr.typeError "object is not iterable") :=
  ⟨rfl, rfl⟩

/-- C10 witness: `c10_dead_null_guard` evaluated at the concrete
list-of-integer attribute. -/
theorem c10_dead_null_guard_witness :
    list_is_none = false ∧
    resolveAux 11 false (AttributeMapper.items false false intSchema []) Value.null =
      Except.error (PyErr.typeError "object is not iterable") :=
  c10_dead_null_guard 10 false false intSchema []

end Potion
